import Mathlib

/-!
Verification of the mysqldump streaming snapshot engine.

Shallow embedding of the sources:
  * `src/src/getDataDump.ts`  — table snapshot orchestrator, insert builder, dual-sink writer
  * `src/src/DB.ts`           — array-backed pool registry, `multiQuery`
  * `src/unnamed/part_000`    — map-backed pool registry, `multiQuery`
  * `src/src/compressFile.ts` / `src/unnamed/part_001` — post-dump compressor

External collaborators (the mysql driver, the sql formatter, the filesystem)
are modelled as explicit parameters / environments; the repository's own logic
is translated line by line.
-/

/-! ## Data model (`src/interfaces/Table` as used by `getDataDump.ts`) -/

/-- Table descriptor as consumed by `getDataDump` (`src/src/getDataDump.ts`):
`name`, `columnsOrdered`, `isView`, and the post-dump `data` payload
(`null` — here `none` — marks an absent payload). -/
structure Table where
  name : String
  columnsOrdered : List String
  isView : Bool
  data : Option String
deriving DecidableEq, Repr

/-- A result row: mapping from column name to the (already type-cast) literal
text, as produced by the driver's row stream (`QueryRes` in the source). -/
def Row : Type := String → String

/-- `Required<DataDumpOptions>` fields read by `getDataDump`
(`src/src/getDataDump.ts`).  `insert = ""` models a falsy `options.insert`;
`whereMap t = ""` models an absent `options.where[t]` entry. -/
structure Options where
  maxRowsPerInsertStatement : Int
  lockTables : Bool
  includeViewData : Bool
  verbose : Bool
  returnFromFunction : Bool
  format : Bool
  insert : String
  whereMap : String → String

/-- The external world of one dump run: the rows each `SELECT * FROM t`
streams back, and the external `sql-formatter` library. -/
structure Env where
  db : String → List Row
  sqlformat : String → String

/-! ## The NOFORMAT_WRAP unwrapping regex (`getDataDump.ts` line 32)

`sql.replace(/NOFORMAT_WRAP\("##(.+?)##"\)/g, '$1')`: every occurrence of the
literal text `NOFORMAT_WRAP("##`, followed by a shortest non-empty run of
non-newline characters, followed by `##")`, is replaced by that run. -/

/-- If `l = p ++ r`, return `some r`, else `none` (literal pattern match). -/
def dropStart? : List Char → List Char → Option (List Char)
  | [], l => some l
  | _ :: _, [] => none
  | p :: ps, c :: cs => if c = p then dropStart? ps cs else none

/-- The opening literal of the wrap marker. -/
def openMarker : List Char := "NOFORMAT_WRAP(\"##".data

/-- The closing literal of the wrap marker. -/
def closeMarker : List Char := "##\")".data

/-- Lazy `(.+?)` followed by the closing marker: the shortest non-empty,
newline-free capture such that `closeMarker` follows; returns the capture and
the text after the close marker. -/
def grabCapture : List Char → Option (List Char × List Char)
  | [] => none
  | c :: rest =>
    if c = '\n' then none
    else
      match dropStart? closeMarker rest with
      | some tail => some ([c], tail)
      | none =>
        match grabCapture rest with
        | some (cap, tail) => some (c :: cap, tail)
        | none => none

/-- Global regex replace; fuel is the input length (every step consumes at
least one character of input). -/
def replaceNF : Nat → List Char → List Char
  | 0, l => l
  | _ + 1, [] => []
  | fuel + 1, c :: rest =>
    match dropStart? openMarker (c :: rest) with
    | some r1 =>
      match grabCapture r1 with
      | some (cap, tail) => cap ++ replaceNF fuel tail
      | none => c :: replaceNF fuel rest
    | none => c :: replaceNF fuel rest

/-- `sql.replace(/NOFORMAT_WRAP\("##(.+?)##"\)/g, '$1')`. -/
def noformatUnwrap (s : String) : String := ⟨replaceNF s.data.length s.data⟩

/-! ## Insert statement builder (`getDataDump.ts` lines 14–36) -/

/-- `buildInsert(table, values, format, insert)`: joins the header and the
VALUES clause with a space, formats, then unwraps NOFORMAT_WRAP markers. -/
def buildInsert (table : Table) (values : List String)
    (format : String → String) (insert : String) : String :=
  noformatUnwrap (format
    ((insert ++ " INTO `" ++ table.name ++ "` (`"
        ++ String.intercalate "`,`" table.columnsOrdered ++ "`)")
      ++ " "
      ++ ("VALUES " ++ String.intercalate "," values ++ ";")))

/-- `buildInsertValue(row, table)`: one parenthesised tuple in the
descriptor's column order. -/
def buildInsertValue (row : Row) (table : Table) : String :=
  "(" ++ String.intercalate "," (table.columnsOrdered.map row) ++ ")"

/-! ## Row streaming and batching (`getDataDump.ts` lines 174–198)

The `query.on('result')` handler pushes the row's tuple onto `rowQueue` and
flushes a statement exactly when `rowQueue.length === maxRows`; the
`query.on('end')` handler flushes the non-empty remainder. -/

/-- The batching loop: `vals` are the remaining row tuples, `queue` is the
current `rowQueue`; returns the flushed INSERT statements in order. -/
def streamRows (build : List String → String) (maxRows : Nat) :
    List String → List String → List String
  | [], queue => if 0 < queue.length then [build queue] else []
  | v :: rest, queue =>
    let q := queue ++ [v]
    if q.length = maxRows then build q :: streamRows build maxRows rest []
    else streamRows build maxRows rest q

/-- `Math.max(options.maxRowsPerInsertStatement, 0)` (line 54), as the Nat
batch bound compared against `rowQueue.length`. -/
def normalizedB (opts : Options) : Nat := opts.maxRowsPerInsertStatement.toNat

/-- `options.insert ? options.insert + ' ' : 'INSERT'` (lines 167–169). -/
def insertFuncOf (opts : Options) : String :=
  if opts.insert = "" then "INSERT" else opts.insert ++ " "

/-- `options.format ? sqlformatter.format : identity` (lines 63–65). -/
def formatOf (opts : Options) (env : Env) : String → String :=
  if opts.format then env.sqlformat else fun s => s

/-- All INSERT statements emitted for one (non-skipped) table: its streamed
rows are turned into tuples and batched through `streamRows` starting from an
empty `rowQueue`. -/
def tableInserts (opts : Options) (env : Env) (t : Table) : List String :=
  streamRows (fun q => buildInsert t q (formatOf opts env) (insertFuncOf opts))
    (normalizedB opts)
    ((env.db t.name).map (fun r => buildInsertValue r t)) []

/-! ## Claim C1 support lemmas -/

theorem streamRows_length_pos (build : List String → String) (B : Nat)
    (hB : 0 < B) :
    ∀ (vals queue : List String), queue.length < B →
      (streamRows build B vals queue).length
        = (queue.length + vals.length + B - 1) / B := by
  intro vals
  induction vals with
  | nil =>
    intro queue hq
    simp only [streamRows, List.length_nil]
    by_cases h0 : 0 < queue.length
    · rw [if_pos h0, List.length_singleton]
      have h1 : 1 * B ≤ queue.length + 0 + B - 1 := by omega
      have h2 : queue.length + 0 + B - 1 < (1 + 1) * B := by omega
      exact (Nat.div_eq_of_lt_le h1 h2).symm
    · rw [if_neg h0, List.length_nil]
      have hz : queue.length = 0 := by omega
      rw [hz]
      exact (Nat.div_eq_of_lt (by omega)).symm
  | cons v rest ih =>
    intro queue hq
    simp only [streamRows]
    by_cases hfull : (queue ++ [v]).length = B
    · rw [if_pos hfull]
      have hlen : queue.length + 1 = B := by
        simpa [List.length_append, List.length_cons, List.length_nil] using hfull
      rw [List.length_cons, ih [] (by simpa using hB)]
      simp only [List.length_nil, Nat.zero_add, List.length_cons]
      have hnum : queue.length + (rest.length + 1) + B - 1
          = (rest.length + B - 1) + B := by omega
      rw [hnum, Nat.add_div_right _ hB]
    · rw [if_neg hfull]
      have hlt : (queue ++ [v]).length < B := by
        simp only [List.length_append, List.length_singleton, List.length_cons,
          List.length_nil] at hfull ⊢
        omega
      rw [ih (queue ++ [v]) hlt]
      have hnum2 : (queue ++ [v]).length + rest.length + B - 1
          = queue.length + (v :: rest).length + B - 1 := by
        simp only [List.length_append, List.length_singleton, List.length_cons,
          List.length_nil]
        omega
      rw [hnum2]

theorem streamRows_zero (build : List String → String) :
    ∀ (vals queue : List String), streamRows build 0 vals queue
      = if 0 < (queue ++ vals).length then [build (queue ++ vals)] else [] := by
  intro vals
  induction vals with
  | nil => intro queue; simp [streamRows]
  | cons v rest ih =>
    intro queue
    simp only [streamRows]
    have hne : ¬((queue ++ [v]).length = 0) := by simp
    rw [if_neg hne, ih (queue ++ [v])]
    have hassoc : (queue ++ [v]) ++ rest = queue ++ (v :: rest) := by
      simp
    rw [hassoc]

/-- C1: for a table whose query streams N rows, with normalized batch bound
B > 0 the engine emits exactly ⌈N/B⌉ = (N + B - 1)/B INSERT statements, and
with B = 0 it emits exactly one INSERT statement when N > 0. -/
theorem insert_statement_count (opts : Options) (env : Env) (t : Table) :
    (0 < normalizedB opts →
      (tableInserts opts env t).length
        = ((env.db t.name).length + normalizedB opts - 1) / normalizedB opts)
    ∧ (normalizedB opts = 0 → 0 < (env.db t.name).length →
      (tableInserts opts env t).length = 1) := by
  constructor
  · intro hB
    unfold tableInserts
    rw [streamRows_length_pos _ _ hB _ [] (by simpa using hB)]
    simp [List.length_map]
  · intro hB hN
    unfold tableInserts
    rw [hB, streamRows_zero]
    rw [if_pos (by simpa using hN)]
    rfl

/-- Concrete inputs for the C1 witness: a 3-row table with B = 2 (two
statements) and with B = 0 (one statement). -/
def w1table : Table := ⟨"t", ["c"], false, none⟩

def w1row : Row := fun c => if c = "c" then "1" else ""

def w1env : Env :=
  { db := fun _ => [w1row, w1row, w1row], sqlformat := fun s => s }

def w1opts : Options :=
  { maxRowsPerInsertStatement := 2, lockTables := false,
    includeViewData := false, verbose := false, returnFromFunction := false,
    format := false, insert := "", whereMap := fun _ => "" }

def w0opts : Options :=
  { w1opts with maxRowsPerInsertStatement := 0 }

theorem insert_statement_count_witness :
    (tableInserts w1opts w1env w1table).length
        = ((w1env.db w1table.name).length + normalizedB w1opts - 1)
            / normalizedB w1opts
    ∧ (tableInserts w0opts w1env w1table).length = 1 :=
  ⟨(insert_statement_count w1opts w1env w1table).1 (by decide),
   (insert_statement_count w0opts w1env w1table).2 (by decide)
     (by simp [w1env])⟩

/-! ## Per-table orchestration (`getDataDump.ts` lines 115–220)

Each loop iteration pushes exactly one record onto `retTables`, so when table
`i` is handled, `retTables.length > 0` holds iff `i > 0`.  All `saveChunk`
calls in the loop use the default `inArray = true`, so the retained
per-table lines (when `options.returnFromFunction`) coincide with the lines
written to the file sink for that table. -/

/-- `options.where[table.name] ? ' WHERE ' + ... : ''` (lines 145–147 and
163–165). -/
def whereOf (opts : Options) (t : Table) : String :=
  if opts.whereMap t.name = "" then "" else " WHERE " ++ opts.whereMap t.name

/-- The verbose header block (lines 142–158); empty when `verbose` is off. -/
def tableHeader (opts : Options) (t : Table) : List String :=
  if opts.verbose then
    ["# ------------------------------------------------------------",
     "# DATA DUMP FOR TABLE: " ++ t.name
       ++ (if opts.lockTables then " (locked)" else ""),
     "# " ++ whereOf opts t,
     "# ------------------------------------------------------------",
     ""]
  else []

/-- All lines emitted while handling one non-skipped table: the blank
separator (line 136–139, only when a previous record exists), the verbose
header, then the INSERT statements. -/
def tableLines (opts : Options) (env : Env) (hasPrev : Bool) (t : Table) :
    List String :=
  (if hasPrev then [""] else []) ++ tableHeader opts t ++ tableInserts opts env t

/-- One loop iteration (lines 117–219): a view with `includeViewData` off is
skipped with a `data := none` record and no output; otherwise the table's
lines are emitted and the record carries the joined retained lines (when
`returnFromFunction`) or `none`.  `hasPrev` is `retTables.length > 0`. -/
def processTable (opts : Options) (env : Env) (hasPrev : Bool) (t : Table) :
    Table × List String :=
  if t.isView && !opts.includeViewData then
    ({ t with data := none }, [])
  else
    let lines := tableLines opts env hasPrev t
    let dataOut : Option String :=
      if opts.returnFromFunction then some (String.intercalate "\n" lines)
      else none
    ({ t with data := dataOut }, lines)

/-- The `while (tables.length > 0)` loop: each table yields its result record
and emitted lines; after the first iteration a previous record always
exists. -/
def dumpTables (opts : Options) (env : Env) :
    List Table → Bool → List (Table × List String)
  | [], _ => []
  | t :: rest, hasPrev =>
    processTable opts env hasPrev t :: dumpTables opts env rest true

/-- The per-table records and emitted lines of a whole run, starting from an
empty `retTables`. -/
def dumpPerTable (opts : Options) (env : Env) (tables : List Table) :
    List (Table × List String) :=
  dumpTables opts env tables false

/-- `getDataDump` (success path): the returned `retTables` list and the full
file-sink contents — the per-table lines in order plus the single trailing
blank written after the loop (line 222). -/
def getDataDump (opts : Options) (env : Env) (tables : List Table) :
    List Table × List String :=
  let per := dumpPerTable opts env tables
  (per.map Prod.fst, (per.map Prod.snd).flatten ++ [""])

theorem dumpTables_get? (opts : Options) (env : Env) :
    ∀ (ts : List Table) (h : Bool) (i : Nat),
      (dumpTables opts env ts h).get? i
        = (ts.get? i).map (fun t => processTable opts env (h || !(i == 0)) t) := by
  intro ts
  induction ts with
  | nil => intro h i; simp [dumpTables]
  | cons t rest ih =>
    intro h i
    cases i with
    | zero => simp [dumpTables]
    | succ j =>
      simp only [dumpTables, List.get?_cons_succ, ih true j]
      have hb : (true || !(j == 0)) = (h || !(j + 1 == 0)) := by
        cases h <;> rfl
      rw [hb]

theorem dumpTables_length (opts : Options) (env : Env) :
    ∀ (ts : List Table) (h : Bool),
      (dumpTables opts env ts h).length = ts.length := by
  intro ts
  induction ts with
  | nil => intro h; rfl
  | cons t rest ih => intro h; simp [dumpTables, ih]

/-- C4: a view table at position `i`, with `includeViewData = false`, yields
the record `{table with data := none}` at the same position `i` of the result
list (which has the input's length), and contributes no output lines to any
sink. -/
theorem view_skip_result (opts : Options) (env : Env) (tables : List Table)
    (i : Nat) (t : Table) (ht : tables.get? i = some t)
    (hv : t.isView = true) (hinc : opts.includeViewData = false) :
    ((getDataDump opts env tables).1).get? i = some { t with data := none }
    ∧ (dumpPerTable opts env tables).get? i = some ({ t with data := none }, [])
    ∧ ((getDataDump opts env tables).1).length = tables.length := by
  have hskip : (t.isView && !opts.includeViewData) = true := by
    rw [hv, hinc]; rfl
  have hper : (dumpPerTable opts env tables).get? i
      = some ({ t with data := none }, []) := by
    unfold dumpPerTable
    rw [dumpTables_get? opts env tables false i, ht]
    simp only [Option.map_some']
    unfold processTable
    rw [hskip]
    rfl
  refine ⟨?_, hper, ?_⟩
  · show ((dumpPerTable opts env tables).map Prod.fst).get? i = _
    rw [List.get?_map, hper]
    rfl
  · show ((dumpPerTable opts env tables).map Prod.fst).length = _
    rw [List.length_map]
    exact dumpTables_length opts env tables false

/-- Concrete inputs for the C4 witness. -/
def c4view : Table := ⟨"v", ["c"], true, some "stale"⟩

theorem view_skip_result_witness :
    ((getDataDump w1opts w1env [c4view]).1).get? 0
        = some { c4view with data := none }
    ∧ (dumpPerTable w1opts w1env [c4view]).get? 0
        = some ({ c4view with data := none }, [])
    ∧ ((getDataDump w1opts w1env [c4view]).1).length = [c4view].length :=
  view_skip_result w1opts w1env [c4view] 0 c4view rfl rfl rfl

/-- Unfolding of a non-skipped table's iteration: the emitted lines are
`tableLines` and the record's payload is the joined retained lines when
`returnFromFunction` is on, `none` otherwise. -/
theorem processTable_eq (opts : Options) (env : Env) (hp : Bool) (t : Table)
    (hproc : (t.isView && !opts.includeViewData) = false) :
    processTable opts env hp t
      = ({ t with data :=
            (if opts.returnFromFunction then
              some (String.intercalate "\n" (tableLines opts env hp t))
            else none) },
          tableLines opts env hp t) := by
  unfold processTable
  simp only [hproc, Bool.false_eq_true, if_false]

/-- No INSERT statements are built for a table whose query streams zero
rows. -/
theorem tableInserts_empty (opts : Options) (env : Env) (t : Table)
    (hempty : env.db t.name = []) : tableInserts opts env t = [] := by
  unfold tableInserts
  rw [hempty]
  simp [streamRows]

/-- C5 (amended): a non-skipped table with zero streamed rows emits no INSERT
statement — its lines are only the separator (when a previous record exists)
and the verbose header — and its record's payload is the absence marker when
in-memory retention is off, but the joined retained lines (possibly the empty
string) when retention is on. -/
theorem empty_table_emission (opts : Options) (env : Env) (tables : List Table)
    (i : Nat) (t : Table) (ht : tables.get? i = some t)
    (hproc : (t.isView && !opts.includeViewData) = false)
    (hempty : env.db t.name = []) :
    tableInserts opts env t = []
    ∧ (dumpPerTable opts env tables).get? i
        = some ({ t with data :=
              (if opts.returnFromFunction then
                some (String.intercalate "\n"
                  ((if !(i == 0) then [""] else []) ++ tableHeader opts t))
              else none) },
            (if !(i == 0) then [""] else []) ++ tableHeader opts t) := by
  have hIns := tableInserts_empty opts env t hempty
  have hLines : tableLines opts env (!(i == 0)) t
      = (if !(i == 0) then [""] else []) ++ tableHeader opts t := by
    unfold tableLines
    rw [hIns, List.append_nil]
  refine ⟨hIns, ?_⟩
  unfold dumpPerTable
  rw [dumpTables_get? opts env tables false i, ht]
  simp only [Option.map_some']
  rw [processTable_eq opts env (false || !(i == 0)) t hproc]
  rw [Bool.false_or, hLines]

/-- Concrete inputs for the C5 witness and counterexample: one non-view
table, zero rows, in-memory retention enabled. -/
def c5table : Table := ⟨"t", ["c"], false, none⟩

def c5opts : Options :=
  { maxRowsPerInsertStatement := 0, lockTables := false,
    includeViewData := false, verbose := false, returnFromFunction := true,
    format := false, insert := "", whereMap := fun _ => "" }

def c5env : Env := { db := fun _ => [], sqlformat := fun s => s }

theorem empty_table_emission_witness :
    tableInserts c5opts c5env c5table = []
    ∧ (dumpPerTable c5opts c5env [c5table]).get? 0
        = some ({ c5table with data :=
              (if c5opts.returnFromFunction then
                some (String.intercalate "\n"
                  ((if !((0 : Nat) == 0) then [""] else [])
                    ++ tableHeader c5opts c5table))
              else none) },
            (if !((0 : Nat) == 0) then [""] else []) ++ tableHeader c5opts c5table) :=
  empty_table_emission c5opts c5env [c5table] 0 c5table rfl rfl rfl

/-- C5 counterexample: with in-memory retention enabled, the empty table's
result payload is the empty dump text `some ""`, not the absence marker
`none` claimed by the spec. -/
theorem empty_table_payload_counterexample :
    ((getDataDump c5opts c5env [c5table]).1).get? 0
        = some { c5table with data := some "" }
    ∧ ({ c5table with data := some "" } : Table)
        ≠ { c5table with data := none } := by
  refine ⟨rfl, by decide⟩

/-! ## Claim C10: the blank separator line (lines 134–139) -/

/-- C10 (amended): with in-memory retention on, a non-skipped table at input
position `i` emits exactly `tableLines` with `hasPrev = (i ≠ 0)` and retains
their join as its payload; when `0 < i` (some earlier table — view or not —
already produced a result record) those lines start with the blank separator,
and when `i = 0` no separator is emitted. -/
theorem blank_separator_lines (opts : Options) (env : Env) (tables : List Table)
    (i : Nat) (t : Table) (ht : tables.get? i = some t)
    (hproc : (t.isView && !opts.includeViewData) = false)
    (hR : opts.returnFromFunction = true) :
    (dumpPerTable opts env tables).get? i
      = some ({ t with data :=
            (some (String.intercalate "\n" (tableLines opts env (!(i == 0)) t))) },
          tableLines opts env (!(i == 0)) t)
    ∧ (0 < i → tableLines opts env (!(i == 0)) t
        = "" :: (tableHeader opts t ++ tableInserts opts env t))
    ∧ (i = 0 → tableLines opts env (!(i == 0)) t
        = tableHeader opts t ++ tableInserts opts env t) := by
  refine ⟨?_, ?_, ?_⟩
  · unfold dumpPerTable
    rw [dumpTables_get? opts env tables false i, ht]
    simp only [Option.map_some']
    rw [processTable_eq opts env (false || !(i == 0)) t hproc]
    rw [Bool.false_or, hR]
    simp only [if_true]
  · intro hi
    have hz : (i == 0) = false := by
      cases i with
      | zero => omega
      | succ j => rfl
    unfold tableLines
    rw [hz]
    rfl
  · intro hi
    subst hi
    unfold tableLines
    rfl

/-- Concrete inputs for the C10 witness and counterexample: a skipped view
first, then a one-row table, retention enabled. -/
def c10view : Table := ⟨"v", ["c"], true, none⟩

def c10table : Table := ⟨"t", ["c"], false, none⟩

def c10env : Env :=
  { db := fun n => if n = "t" then [w1row] else [], sqlformat := fun s => s }

theorem blank_separator_lines_witness :
    (dumpPerTable c5opts c10env [c10view, c10table]).get? 1
      = some ({ c10table with data :=
            (some (String.intercalate "\n"
              (tableLines c5opts c10env (!((1 : Nat) == 0)) c10table))) },
          tableLines c5opts c10env (!((1 : Nat) == 0)) c10table)
    ∧ tableLines c5opts c10env (!((1 : Nat) == 0)) c10table
        = "" :: (tableHeader c5opts c10table ++ tableInserts c5opts c10env c10table) :=
  ⟨(blank_separator_lines c5opts c10env [c10view, c10table] 1 c10table rfl rfl
      rfl).1,
   (blank_separator_lines c5opts c10env [c10view, c10table] 1 c10table rfl rfl
      rfl).2.1 (by decide)⟩

/-- C10 counterexample: table 0 is a skipped view, so table 1 is the first
*processed* table, yet its retained payload begins with the blank separator
line (its first retained line is empty), because the view's result record
already made `retTables` non-empty — refuting the claim's clause that the
first processed table's payload never starts with the blank line. -/
theorem first_processed_blank_counterexample :
    c10view.isView = true
    ∧ (c10table.isView && !c5opts.includeViewData) = false
    ∧ (dumpPerTable c5opts c10env [c10view, c10table]).get? 1
        = some ({ c10table with
                    data := some "\nINSERT INTO `t` (`c`) VALUES (1);" },
                ["", "INSERT INTO `t` (`c`) VALUES (1);"]) :=
  ⟨rfl, rfl, rfl⟩

/-! ## Claim C7: effect on caller-held state (lines 53–60)

In TypeScript the `options` object is passed by reference, so the assignment
`options.maxRowsPerInsertStatement = Math.max(..., 0)` (line 54) is visible
to the caller; `tables = [...tables]` (line 60) rebinds the local variable to
a fresh clone, so `tables.shift()` and the per-table `merge` copies never
touch the caller's list or descriptors. -/

/-- The caller-visible state passed (by reference) into `getDataDump`. -/
structure CallerState where
  options : Options
  tables : List Table

/-- The caller-visible state after a `getDataDump` run: the table list and
its descriptors are untouched, but `options.maxRowsPerInsertStatement` has
been normalized in place. -/
def getDataDumpCallerEffect (cs : CallerState) : CallerState :=
  { options := { cs.options with
      maxRowsPerInsertStatement := max cs.options.maxRowsPerInsertStatement 0 },
    tables := cs.tables }

/-- C7 (amended): the caller's table list is unchanged, but the caller-held
`options.maxRowsPerInsertStatement` is set to `max(value, 0)` in place; the
caller's state is fully unchanged only when the supplied value was already
≥ 0. -/
theorem caller_state_effect (cs : CallerState) :
    (getDataDumpCallerEffect cs).tables = cs.tables
    ∧ (getDataDumpCallerEffect cs).options.maxRowsPerInsertStatement
        = max cs.options.maxRowsPerInsertStatement 0
    ∧ (0 ≤ cs.options.maxRowsPerInsertStatement →
        getDataDumpCallerEffect cs = cs) := by
  refine ⟨rfl, rfl, ?_⟩
  intro h
  unfold getDataDumpCallerEffect
  rw [max_eq_left h]

/-- Concrete caller state with a negative configured batch size. -/
def c7state : CallerState :=
  ⟨{ w1opts with maxRowsPerInsertStatement := -1 }, [w1table]⟩

/-- Concrete caller state with a non-negative configured batch size. -/
def c7posState : CallerState := ⟨w1opts, [w1table]⟩

theorem caller_state_effect_witness :
    (getDataDumpCallerEffect c7posState).tables = c7posState.tables
    ∧ (getDataDumpCallerEffect c7posState).options.maxRowsPerInsertStatement
        = max c7posState.options.maxRowsPerInsertStatement 0
    ∧ getDataDumpCallerEffect c7posState = c7posState :=
  ⟨(caller_state_effect c7posState).1,
   (caller_state_effect c7posState).2.1,
   (caller_state_effect c7posState).2.2 (by decide)⟩

/-- C7 counterexample: a caller-supplied `maxRowsPerInsertStatement = -1` is
normalized to `0` on the caller's own options object, so the caller-held
state is altered by the run. -/
theorem options_mutation_counterexample :
    (getDataDumpCallerEffect c7state).options.maxRowsPerInsertStatement = 0
    ∧ c7state.options.maxRowsPerInsertStatement = -1
    ∧ ((0 : Int) ≠ -1) :=
  ⟨rfl, rfl, by decide⟩

/-! ## Locking, cleanup and error propagation (`getDataDump.ts` lines 106–231)

The `try` block (lock acquisition then the table loop) and the `finally`
block (read-only off, unlock, pool close) are modelled as sequences of
external SQL commands whose outcomes an environment supplies.  JavaScript
`try`/`finally` semantics: when the `finally` block itself throws, *its*
error replaces the `try` block's outcome; `conn_pool.end()` (line 230) is
fire-and-forget and cannot reject the run, and it is not reached when an
awaited cleanup statement rejects first. -/

/-- The external commands `getDataDump` issues, in source order. -/
inductive Cmd where
  | flushTablesWithReadLock
  | setGlobalReadOnlyOn
  | selectTable (name : String)
  | setGlobalReadOnlyOff
  | unlockTables
  | poolEnd
deriving DecidableEq, Repr

/-- Outcomes of the external commands. -/
structure SqlEnv where
  exec : Cmd → Except String Unit

/-- Issue commands in order, stopping at the first failure; returns the
commands actually issued and the outcome. -/
def runCmds (env : SqlEnv) : List Cmd → List Cmd × Except String Unit
  | [] => ([], Except.ok ())
  | c :: cs =>
    match env.exec c with
    | Except.error e => ([c], Except.error e)
    | Except.ok _ =>
      let r := runCmds env cs
      (c :: r.1, r.2)

/-- The per-table query loop viewed at the command level (lines 115–220):
skipped views issue no query; a query-stream error aborts the loop. -/
def queryLoop (opts : Options) (env : SqlEnv) : List Table → List Cmd × Except String Unit
  | [] => ([], Except.ok ())
  | t :: rest =>
    if t.isView && !opts.includeViewData then queryLoop opts env rest
    else
      match env.exec (Cmd.selectTable t.name) with
      | Except.error e => ([Cmd.selectTable t.name], Except.error e)
      | Except.ok _ =>
        let r := queryLoop opts env rest
        (Cmd.selectTable t.name :: r.1, r.2)

/-- JavaScript `try`/`finally`: an abrupt completion of the `finally` block
replaces the `try` block's outcome. -/
def jsFinally (body cleanup : Except String Unit) : Except String Unit :=
  match cleanup with
  | Except.error e => Except.error e
  | Except.ok _ => body

/-- Observable shape of one `getDataDump` run at the command level. -/
structure RunTrace where
  trace : List Cmd
  bodyResult : Except String Unit
  cleanupResult : Except String Unit
  result : Except String Unit

/-- Lines 106–231: lock acquisition (lines 107–111), the table loop, and the
`finally` cleanup (lines 223–231, `SET GLOBAL read_only = OFF` then
`UNLOCK TABLES` then `conn_pool.end()`); the caller observes the cleanup
error when the cleanup throws, the body's outcome otherwise. -/
def runSnapshot (opts : Options) (env : SqlEnv) (tables : List Table) : RunTrace :=
  let lock :=
    if opts.lockTables then
      runCmds env [Cmd.flushTablesWithReadLock, Cmd.setGlobalReadOnlyOn]
    else ([], Except.ok ())
  let body :=
    match lock.2 with
    | Except.error e => (lock.1, Except.error e)
    | Except.ok _ =>
      let q := queryLoop opts env tables
      (lock.1 ++ q.1, q.2)
  let cleanup :=
    if opts.lockTables then
      match runCmds env [Cmd.setGlobalReadOnlyOff, Cmd.unlockTables] with
      | (cs, Except.ok _) => (cs ++ [Cmd.poolEnd], Except.ok ())
      | (cs, Except.error e) => (cs, Except.error e)
    else ([Cmd.poolEnd], Except.ok ())
  { trace := body.1 ++ cleanup.1
    bodyResult := body.2
    cleanupResult := cleanup.2
    result := jsFinally body.2 cleanup.2 }

/-- The projections of a run are definitionally the pieces above. -/
theorem runSnapshot_result (opts : Options) (env : SqlEnv) (tables : List Table) :
    (runSnapshot opts env tables).result
      = jsFinally (runSnapshot opts env tables).bodyResult
          (runSnapshot opts env tables).cleanupResult := rfl

/-- C3 (amended): the original fatal error is what the caller observes only
when the cleanup path completes without error; whenever a cleanup statement
throws, the cleanup error replaces any prior error and is the reported
failure. -/
theorem cleanup_error_reporting (opts : Options) (env : SqlEnv)
    (tables : List Table) :
    ((runSnapshot opts env tables).cleanupResult = Except.ok () →
      (runSnapshot opts env tables).result
        = (runSnapshot opts env tables).bodyResult)
    ∧ (∀ b, (runSnapshot opts env tables).cleanupResult = Except.error b →
      (runSnapshot opts env tables).result = Except.error b) := by
  constructor
  · intro h
    rw [runSnapshot_result, h]
    rfl
  · intro b h
    rw [runSnapshot_result, h]
    rfl

/-- Concrete run for the C3 counterexample: the query stream fails with `A`,
then `SET GLOBAL read_only = OFF` fails with `B` during cleanup. -/
def c3opts : Options := { w1opts with lockTables := true }

def c3env : SqlEnv :=
  { exec := fun c =>
      match c with
      | Cmd.selectTable _ => Except.error "A"
      | Cmd.setGlobalReadOnlyOff => Except.error "B"
      | _ => Except.ok () }

/-- A cleanup-clean variant of `c3env`: only the query stream fails. -/
def c3okEnv : SqlEnv :=
  { exec := fun c =>
      match c with
      | Cmd.selectTable _ => Except.error "A"
      | _ => Except.ok () }

def c3tables : List Table := [w1table]

theorem cleanup_error_reporting_witness :
    (runSnapshot c3opts c3okEnv c3tables).result
        = (runSnapshot c3opts c3okEnv c3tables).bodyResult
    ∧ (runSnapshot c3opts c3env c3tables).result = Except.error "B" :=
  ⟨(cleanup_error_reporting c3opts c3okEnv c3tables).1 rfl,
   (cleanup_error_reporting c3opts c3env c3tables).2 "B" rfl⟩

/-- C3 counterexample: the table loop fails with the fatal error `A`, the
cleanup's `SET GLOBAL read_only = OFF` then throws `B`, and the caller
observes `B` — the cleanup error masks the original fatal error, contrary to
the claim. -/
theorem cleanup_error_masks_counterexample :
    (runSnapshot c3opts c3env c3tables).bodyResult = Except.error "A"
    ∧ (runSnapshot c3opts c3env c3tables).result = Except.error "B"
    ∧ ("A" : String) ≠ "B" :=
  ⟨rfl, rfl, by decide⟩

/-- C6: when locking is enabled and `FLUSH TABLES WITH READ LOCK` fails, no
table is ever queried, the cleanup path is still attempted (the read-only
unset command is issued), and the run reports a failure. -/
theorem lock_failure_no_queries (opts : Options) (env : SqlEnv)
    (tables : List Table) (e : String) (hL : opts.lockTables = true)
    (hF : env.exec Cmd.flushTablesWithReadLock = Except.error e) :
    ((runSnapshot opts env tables).trace.countP
        (fun c => match c with | Cmd.selectTable _ => true | _ => false)) = 0
    ∧ Cmd.setGlobalReadOnlyOff ∈ (runSnapshot opts env tables).trace
    ∧ (runSnapshot opts env tables).result ≠ Except.ok () := by
  unfold runSnapshot
  rw [hL]
  simp only [if_true]
  unfold runCmds
  rw [hF]
  cases h1 : env.exec Cmd.setGlobalReadOnlyOff with
  | error b =>
    simp [jsFinally, List.countP, List.countP.go]
  | ok u =>
    cases h2 : env.exec Cmd.unlockTables with
    | error b' =>
      simp [runCmds, h2, jsFinally, List.countP, List.countP.go]
    | ok u' =>
      simp [runCmds, h2, jsFinally, List.countP, List.countP.go]

/-- Concrete run for the C6 witness: lock acquisition fails, everything else
succeeds. -/
def c6env : SqlEnv :=
  { exec := fun c =>
      match c with
      | Cmd.flushTablesWithReadLock => Except.error "lockfail"
      | _ => Except.ok () }

theorem lock_failure_no_queries_witness :
    ((runSnapshot c3opts c6env c3tables).trace.countP
        (fun c => match c with | Cmd.selectTable _ => true | _ => false)) = 0
    ∧ Cmd.setGlobalReadOnlyOff ∈ (runSnapshot c3opts c6env c3tables).trace
    ∧ (runSnapshot c3opts c6env c3tables).result ≠ Except.ok () :=
  lock_failure_no_queries c3opts c6env c3tables "lockfail" rfl rfl

/-! ## Claim C2: the pool registries (`src/src/DB.ts` and `src/unnamed/part_000`)

`DB.ts` keeps `const poolArr: Array<DB> = []` and `connect` returns
`poolArr[0]` whenever any pool exists, ignoring the requested identity.
`part_000` keeps `const poolArr: Map<String, DB>` keyed by
`options.database || "SiPbxDomain"` and is a true get-or-create. -/

/-- The connection options fields relevant to pool identity. -/
structure ConnectionConfig where
  database : String
  host : String
  user : String
deriving DecidableEq, Repr

/-- A `DB` instance, remembering the options its pool was created with. -/
structure Pool where
  cfg : ConnectionConfig
deriving DecidableEq, Repr

/-- `DB.connect` of `src/src/DB.ts` (lines 14–22): if any pool exists return
`poolArr[0]`; otherwise create one from `options`, push it, return it. -/
def connectArray (poolArr : List Pool) (options : ConnectionConfig) :
    Pool × List Pool :=
  match poolArr with
  | p :: _ => (p, poolArr)
  | [] => (⟨options⟩, [⟨options⟩])

/-- `options.database || "SiPbxDomain"` (`part_000` line 15); `""` models an
absent/falsy `database` option. -/
def dbIdentity (options : ConnectionConfig) : String :=
  if options.database = "" then "SiPbxDomain" else options.database

/-- `DB.connect` of `src/unnamed/part_000` (lines 14–25): look the identity
up in the map; on a hit return the stored pool, otherwise store a pool
created from `options` and return it (`set` then `get`). -/
def connectMap (poolArr : List (String × Pool)) (options : ConnectionConfig) :
    Pool × List (String × Pool) :=
  match poolArr.lookup (dbIdentity options) with
  | some p => (p, poolArr)
  | none => (⟨options⟩, poolArr ++ [(dbIdentity options, ⟨options⟩)])

/-- C2 (amended): the map-backed registry (`part_000`) is get-or-create
keyed by the (defaulted) database name — a stored pool is returned with the
registry unchanged, and a miss stores and returns a pool built from the
supplied configuration; the array-backed registry (`DB.ts`) instead returns
the first pool ever created for *every* request, regardless of identity, and
only creates a pool when none exists at all. -/
theorem pool_registry_behavior (st : List (String × Pool))
    (c : ConnectionConfig) (p : Pool) (q : Pool) (arr : List Pool) :
    (st.lookup (dbIdentity c) = some p → connectMap st c = (p, st))
    ∧ (st.lookup (dbIdentity c) = none →
        connectMap st c = (⟨c⟩, st ++ [(dbIdentity c, ⟨c⟩)]))
    ∧ connectArray (q :: arr) c = (q, q :: arr)
    ∧ connectArray [] c = (⟨c⟩, [⟨c⟩]) := by
  refine ⟨?_, ?_, rfl, rfl⟩
  · intro h
    unfold connectMap
    rw [h]
  · intro h
    unfold connectMap
    rw [h]

/-- Concrete configurations for the C2 witness and counterexample. -/
def c2cfg1 : ConnectionConfig := ⟨"d1", "h", "u"⟩

def c2cfg2 : ConnectionConfig := ⟨"d2", "h", "u"⟩

theorem pool_registry_behavior_witness :
    connectMap [("d1", ⟨c2cfg1⟩)] c2cfg1 = (⟨c2cfg1⟩, [("d1", ⟨c2cfg1⟩)])
    ∧ connectMap [] c2cfg2 = (⟨c2cfg2⟩, [("d2", ⟨c2cfg2⟩)])
    ∧ connectArray [⟨c2cfg1⟩] c2cfg2 = (⟨c2cfg1⟩, [⟨c2cfg1⟩]) :=
  ⟨(pool_registry_behavior [("d1", ⟨c2cfg1⟩)] c2cfg1 ⟨c2cfg1⟩ ⟨c2cfg1⟩ []).1 rfl,
   (pool_registry_behavior [] c2cfg2 ⟨c2cfg2⟩ ⟨c2cfg2⟩ []).2.1 rfl,
   (pool_registry_behavior [] c2cfg2 ⟨c2cfg1⟩ ⟨c2cfg1⟩ []).2.2.1⟩

/-- C2 counterexample (against `src/src/DB.ts`): after a pool is created for
identity `d1`, an acquire for the distinct identity `d2` returns that very
`d1` pool unchanged and stores nothing new — two distinct identities share
one pool, refuting the claimed keyed get-or-create. -/
theorem pool_registry_identity_counterexample :
    (connectArray ((connectArray [] c2cfg1).2) c2cfg2).1
        = (connectArray [] c2cfg1).1
    ∧ (connectArray ((connectArray [] c2cfg1).2) c2cfg2).1.cfg.database = "d1"
    ∧ c2cfg2.database ≠ "d1"
    ∧ (connectArray ((connectArray [] c2cfg1).2) c2cfg2).2
        = (connectArray [] c2cfg1).2 :=
  ⟨rfl, rfl, by decide, rfl⟩

/-! ## Claim C8: the post-dump compressor (`src/src/compressFile.ts`,
`src/unnamed/part_001`)

The filesystem is a finite map from path to contents; gzip is an external
byte transformation.  Environmental I/O failures (rename, stream read/write
errors) are not modelled — on those paths the source merely rejects — and
the deferred `deleteFile` timer is modelled as having completed. -/

/-- A snapshot of the filesystem: path to file contents. -/
structure FS where
  files : List (String × String)
deriving DecidableEq, Repr

/-- `fs.existsSync(p)`. -/
def FS.existsSync (fs : FS) (p : String) : Bool := (fs.files.lookup p).isSome

/-- Read a file's contents (`""` if absent; only used behind an existence
check). -/
def FS.readFile (fs : FS) (p : String) : String := (fs.files.lookup p).getD ""

/-- `fs.unlinkSync(p)` (also used for the deferred `deleteFile`). -/
def FS.unlink (fs : FS) (p : String) : FS :=
  ⟨fs.files.filter (fun e => !(e.1 == p))⟩

/-- Create/overwrite a file (the `createWriteStream` target). -/
def FS.writeFile (fs : FS) (p c : String) : FS :=
  ⟨(p, c) :: (FS.unlink fs p).files⟩

/-- `fs.renameSync(src, dst)`. -/
def FS.renameSync (fs : FS) (src dst : String) : FS :=
  match fs.files.lookup src with
  | some c => FS.writeFile (FS.unlink fs src) dst c
  | none => fs

/-- `compressFile(filename)` (`compressFile.ts` lines 4–79): reject when the
source file is missing, before any rename/write; otherwise rename to
`filename + ".temp"`, re-check the temp file, gzip its contents into a fresh
file at the original path, and delete the temp file. -/
def compressFile (gzip : String → String) (fs : FS) (filename : String) :
    Except String Unit × FS :=
  let tempFilename := filename ++ ".temp"
  if FS.existsSync fs filename = false then
    (Except.error ("File " ++ filename ++ " does not exist."), fs)
  else
    let fs1 := FS.renameSync fs filename tempFilename
    if FS.existsSync fs1 tempFilename = false then
      (Except.error ("File " ++ tempFilename ++ " does not exist."), fs1)
    else
      let fs2 := FS.writeFile fs1 filename (gzip (FS.readFile fs1 tempFilename))
      (Except.ok (), FS.unlink fs2 tempFilename)

/-- C8: compressing a missing file fails immediately with the
source-missing error and returns the filesystem untouched — in particular no
`.temp` sibling is created and nothing is renamed, deleted or written. -/
theorem compress_missing_source (gzip : String → String) (fs : FS)
    (filename : String) (h : FS.existsSync fs filename = false) :
    compressFile gzip fs filename
        = (Except.error ("File " ++ filename ++ " does not exist."), fs)
    ∧ FS.existsSync (compressFile gzip fs filename).2 (filename ++ ".temp")
        = FS.existsSync fs (filename ++ ".temp") := by
  have h1 : compressFile gzip fs filename
      = (Except.error ("File " ++ filename ++ " does not exist."), fs) := by
    unfold compressFile
    rw [if_pos h]
  exact ⟨h1, by rw [h1]⟩

theorem compress_missing_source_witness :
    compressFile (fun s => s) ⟨[]⟩ "dump.sql"
        = (Except.error ("File " ++ "dump.sql" ++ " does not exist."), (⟨[]⟩ : FS))
    ∧ FS.existsSync (compressFile (fun s => s) ⟨[]⟩ "dump.sql").2
          ("dump.sql" ++ ".temp")
        = FS.existsSync ⟨[]⟩ ("dump.sql" ++ ".temp") :=
  compress_missing_source (fun s => s) ⟨[]⟩ "dump.sql" rfl

/-! ## Claim C9: `DB.multiQuery` (`src/src/DB.ts` lines 28–43,
`src/unnamed/part_000` lines 31–46)

`isMulti` is set to `false` exactly when `sql.split(';').length === 2`, and
a non-multi driver result is wrapped in an extra outer array. -/

/-- JavaScript `String.prototype.split` with a one-character separator:
the number of parts is the number of separators plus one. -/
def jsSplit (sep : Char) : List Char → List (List Char)
  | [] => [[]]
  | c :: rest =>
    if c = sep then [] :: jsSplit sep rest
    else
      match jsSplit sep rest with
      | [] => [[c]]
      | h :: t2 => (c :: h) :: t2

theorem jsSplit_ne_nil (sep : Char) (l : List Char) : jsSplit sep l ≠ [] := by
  cases l with
  | nil => simp [jsSplit]
  | cons c rest =>
    simp only [jsSplit]
    by_cases h : c = sep
    · rw [if_pos h]; simp
    · rw [if_neg h]
      cases hs : jsSplit sep rest with
      | nil => simp
      | cons a as => simp

theorem jsSplit_length (sep : Char) :
    ∀ l : List Char, (jsSplit sep l).length = l.count sep + 1 := by
  intro l
  induction l with
  | nil => simp [jsSplit]
  | cons c rest ih =>
    simp only [jsSplit]
    by_cases h : c = sep
    · rw [if_pos h]
      simp only [List.length_cons, ih, List.count_cons]
      simp [h]
    · rw [if_neg h]
      cases hs : jsSplit sep rest with
      | nil => exact absurd hs (jsSplit_ne_nil sep rest)
      | cons a as =>
        have hl : (jsSplit sep rest).length = rest.count sep + 1 := ih
        rw [hs] at hl
        simp only [List.length_cons] at hl ⊢
        simp only [List.count_cons]
        have hbe : (c == sep) = false := by
          simp [h]
        rw [hbe]
        simp only [Bool.false_eq_true, if_false]
        omega

/-- The observable shape of `multiQuery`'s return value: the driver payload
either passed through as-is (`raw`) or wrapped in one extra outer array
(`wrapped`, the `res = [res]` branch). -/
inductive MQResult (α : Type) where
  | raw : α → MQResult α
  | wrapped : α → MQResult α
deriving DecidableEq

/-- `DB.multiQuery(sql)`: `isMulti` is `false` iff `sql.split(';').length
=== 2`; a non-multi result is wrapped in an extra outer array, any other
result is returned unchanged. -/
def multiQuery {α : Type} (sql : String) (driverRes : α) : MQResult α :=
  if (jsSplit ';' sql.data).length = 2 then MQResult.wrapped driverRes
  else MQResult.raw driverRes

/-- C9: `multiQuery` wraps the driver result in an extra outer array iff the
SQL text contains exactly one `;` character anywhere in it; any other text —
no semicolon at all, or two-or-more (e.g. an extra `;` inside a string
literal) — is passed through unwrapped. -/
theorem multiQuery_wrap_iff {α : Type} (sql : String) (r : α) :
    multiQuery sql r = MQResult.wrapped r ↔ sql.data.count ';' = 1 := by
  unfold multiQuery
  have hl := jsSplit_length ';' sql.data
  by_cases h : (jsSplit ';' sql.data).length = 2
  · rw [if_pos h]
    constructor
    · intro _
      omega
    · intro _
      rfl
  · rw [if_neg h]
    constructor
    · intro hw
      exact absurd hw (by simp)
    · intro hc
      exact absurd (by omega : (jsSplit ';' sql.data).length = 2) h
